import Mathlib

/-!
Shallow embedding of the Hydra-Client-Blueprint repository
(`hydra_oauth2/hydra_oauth2_blueprint.py`, `hydra_client/hydra_client_blueprint.py`,
`hydra_client/hydra_token_mixin.py`).

Both blueprints are Flask `OAuth2ConsumerBlueprint` subclasses.  The state a
request handler can observe and mutate is:

* the committed database: a list of user ids (`User` rows, opaque beyond their
  id) and a list of `hydra_token` rows (`HydraTokenMixin`: `provider`,
  `user_id`, `token` payload, with a unique `(provider, user_id)` constraint);
* the Flask session dict (an association list of string keys and values);
* the flask-login current user (`login_user` / `logout_user`);
* the list of flashed messages.

JSON payloads that the code indexes by string key (the OAuth token payload and
the userinfo response) are modelled as association lists of strings; Python
`dict[k]` becomes a lookup that raises `KeyError` when the key is absent, and
`dict.get(k, d)` becomes a lookup with default.  Python exceptions
(`KeyError`, SQLAlchemy's `NoResultFound` / `MultipleResultsFound` /
`UnmappedInstanceError`, flask-login's `AttributeError` on the anonymous
user's missing `id`) are modelled with `Except`, the error carrying the world
as it stood when the exception escaped the handler (nothing after the raise
point runs, so the observable state is the state at the raise).
-/

/-- A JSON-like payload indexed by string keys (token payload, userinfo). -/
abbrev Payload := List (String × String)

/-- Python `d[k]` / `d.get(k)`: first value bound to `k`, if any. -/
def lookupStr (l : Payload) (k : String) : Option String :=
  match l with
  | [] => none
  | (k', v) :: rest => if k' == k then some v else lookupStr rest k

/-- Python `d[k] = v` on a dict: overwrite the binding if present, else add it. -/
def assocSet (l : Payload) (k v : String) : Payload :=
  match l with
  | [] => [(k, v)]
  | (k', v') :: rest => if k' == k then (k, v) :: rest else (k', v') :: assocSet rest k v

/-- Python `del d[k]` on a dict: remove the binding for `k`. -/
def assocErase (l : Payload) (k : String) : Payload :=
  match l with
  | [] => []
  | (k', v') :: rest => if k' == k then assocErase rest k else (k', v') :: assocErase rest k

/-- One row of the `hydra_token` table (`HydraTokenMixin`): provider name,
foreign key to the user id, and the stored OAuth token payload. -/
structure TokenRecord where
  provider : String
  user_id : String
  token : Payload
deriving DecidableEq

/-- Committed database state: the `User` rows (opaque beyond their string id)
and the `hydra_token` rows. -/
structure DB where
  users : List String
  tokens : List TokenRecord
deriving DecidableEq

/-- Request-observable world: committed DB, Flask session dict, flask-login
current user, flashed messages. -/
structure World where
  db : DB
  session : Payload
  currentUser : Option String
  flashes : List String
deriving DecidableEq

/-- The userinfo HTTP response: `r.ok` (2xx status) and `r.json()`. -/
structure Response where
  ok : Bool
  json : Payload
deriving DecidableEq

/-- Python exceptions that can escape the handlers. -/
inductive PyError
  | keyError (key : String)
  | noResult
  | multipleResults
  | unmappedInstance
  | attributeError
deriving DecidableEq

/-- An escaped exception together with the world as it stood at the raise. -/
abbrev Raised := PyError × World

/-- `flash(msg)`: append a message, touching nothing else. -/
def flashMsg (w : World) (m : String) : World :=
  { w with flashes := w.flashes ++ [m] }

/-- `db_session.add(user)` + commit for a user object: a no-op for an already
persistent row, an insert for a new one. -/
def addUser (users : List String) (u : String) : List String :=
  if users.contains u then users else users ++ [u]

/-- `query(token_model).filter_by(provider=p, user_id=s)`: the rows matching
both columns. -/
def recordsFor (tokens : List TokenRecord) (p s : String) : List TokenRecord :=
  tokens.filter (fun r => r.provider == p && r.user_id == s)

/-- SQLAlchemy `.one()`: the sole element, `NoResultFound` on zero,
`MultipleResultsFound` on several. -/
def queryOne {α : Type} (l : List α) : Except PyError α :=
  match l with
  | [] => .error .noResult
  | [r] => .ok r
  | _ :: _ :: _ => .error .multipleResults

/-- Committing a mutated queried row: overwrite the `token` column of the
matching `(provider, user_id)` row (the caller's `.one()` guarantees there is
exactly one). -/
def updateToken (tokens : List TokenRecord) (p s : String) (tok : Payload) :
    List TokenRecord :=
  tokens.map (fun r => if r.provider == p && r.user_id == s then { r with token := tok } else r)

/-- The session key `"{bp.name}_oauth_state"` both blueprints use for the
logout nonce. -/
def stateKey (name : String) : String := name ++ "_oauth_state"

/-- Blueprint configuration: mount name and the Hydra public URL read by
`load_config`. -/
structure Blueprint where
  name : String
  hydra_public_url : String

/-- `load_config`: `self.logout_url = self.hydra_public_url + '/oauth2/sessions/logout'`. -/
def Blueprint.logout_url (bp : Blueprint) : String :=
  bp.hydra_public_url ++ "/oauth2/sessions/logout"

/-- `logged_out` route.  The two blueprints define it with textually identical
bodies, so it is embedded once: read the `state` query parameter (`none` when
absent), and only when a nonce is stored under `"{name}_oauth_state"` and
equals the presented value, log the user out locally, delete the nonce and
flash `"Logged out."`; in every case redirect to `/`. -/
def logged_out (name : String) (stateParam : Option String) (w : World) :
    String × World :=
  let key := stateKey name
  match lookupStr w.session key with
  | some v =>
    if stateParam = some v then
      ("/", { w with
                currentUser := none,
                session := assocErase w.session key,
                flashes := w.flashes ++ ["Logged out."] })
    else ("/", w)
  | none => ("/", w)

namespace HydraOAuth2Blueprint

/-- Tail of `HydraOAuth2Blueprint.hydra_logged_in` after the local user has
been resolved: find-or-create the `hydra_token` row for
`(provider, user_id)` (`.one()` raising `MultipleResultsFound` propagates),
overwrite its `token` payload, commit it in the same transaction as the
staged user rows `users'`, log the token's user in and flash `"Logged in."`.
The handler returns `False` to suppress flask-dance's default token saving. -/
def finishLogin (p user_id : String) (users' : List String) (tok : Payload)
    (w : World) : Except Raised (Bool × World) :=
  match queryOne (recordsFor w.db.tokens p user_id) with
  | .error .noResult =>
    .ok (false, { w with
                    db := { users := users',
                            tokens := w.db.tokens ++ [⟨p, user_id, tok⟩] },
                    currentUser := some user_id,
                    flashes := w.flashes ++ ["Logged in."] })
  | .error e => .error (e, w)
  | .ok _ =>
    .ok (false, { w with
                    db := { users := users',
                            tokens := updateToken w.db.tokens p user_id tok },
                    currentUser := some user_id,
                    flashes := w.flashes ++ ["Logged in."] })

/-- `HydraOAuth2Blueprint.hydra_logged_in` (the `oauth_authorized` handler),
create-or-update mode.  `create_or_update_local_user` is the optional
decorator-registered callback; it receives the looked-up local user (by
`userinfo['sub']`) and the userinfo payload and returns the user to persist
(modelled by its id).  `db_session.add(None)` — a callback returning `None`
— raises `UnmappedInstanceError`.  With no callback and no existing user the
handler flashes `"User not found."` and aborts before any commit. -/
def hydra_logged_in (p : String)
    (create_or_update_local_user : Option (Option String → Payload → Option String))
    (token : Option Payload) (resp : Response) (w : World) :
    Except Raised (Bool × World) :=
  match token with
  | none => .ok (false, flashMsg w "Unable to log in.")
  | some tok =>
    if resp.ok = false then .ok (false, flashMsg w "Unable to fetch user info.")
    else
      match lookupStr resp.json "sub" with
      | none => .error (.keyError "sub", w)
      | some user_id =>
        let found : Option String :=
          if w.db.users.contains user_id then some user_id else none
        match create_or_update_local_user with
        | some f =>
          match f found resp.json with
          | none => .error (.unmappedInstance, w)
          | some u => finishLogin p user_id (addUser w.db.users u) tok w
        | none =>
          match found with
          | none => .ok (false, flashMsg w "User not found.")
          | some _ => finishLogin p user_id w.db.users tok w

/-- `HydraOAuth2Blueprint.logout`: look up the current user's token row with
`.one()` (raising on zero or several; `current_user.id` raises
`AttributeError` when unauthenticated), store a fresh nonce under
`"{bp.name}_oauth_state"`, and redirect to the Hydra end-session endpoint
with `id_token_hint` (`token.get('id_token', '')`), the `logged_out`
callback URL and the nonce as `state`. -/
def logout (bp : Blueprint) (nonce loggedOutUrl : String) (w : World) :
    Except Raised (String × World) :=
  match w.currentUser with
  | none => .error (.attributeError, w)
  | some uid =>
    match queryOne (recordsFor w.db.tokens bp.name uid) with
    | .error e => .error (e, w)
    | .ok local_token =>
      let w' := { w with session := assocSet w.session (stateKey bp.name) nonce }
      .ok (bp.logout_url
             ++ "?id_token_hint=" ++ ((lookupStr local_token.token "id_token").getD "")
             ++ "&post_logout_redirect_uri=" ++ loggedOutUrl
             ++ "&state=" ++ nonce,
           w')

/-- `HydraOAuth2Blueprint.get_access_token`: the `access_token` field of the
current user's token row for this provider, via `.one()`. -/
def get_access_token (bp : Blueprint) (w : World) : Except Raised String :=
  match w.currentUser with
  | none => .error (.attributeError, w)
  | some uid =>
    match queryOne (recordsFor w.db.tokens bp.name uid) with
    | .error e => .error (e, w)
    | .ok local_token =>
      match lookupStr local_token.token "access_token" with
      | none => .error (.keyError "access_token", w)
      | some a => .ok a

end HydraOAuth2Blueprint

namespace HydraClientBlueprint

/-- `HydraClientBlueprint.hydra_logged_in` (the `oauth_authorized` handler),
strict-lookup mode.  The token row for `(provider, userinfo['sub'])` is
queried with `.one()`; on `NoResultFound` a fresh row is built carrying this
exchange's token payload.  An existing row already has an owning user
(non-null foreign key, user deletion cascades to the row), so the
`if not local_token.user` block is skipped: the user is logged in and the
stored payload is left as it was.  Only for a fresh row is a user resolved —
looked up by id, else produced by the optional `create_local_user` callback
(modelled by the id of the user it returns), else the handler flashes
`"User not found."` and aborts — then `local_token.user = user` points the
row's foreign key at that user and the row (with a new user, cascaded) is
committed. -/
def hydra_logged_in (p : String)
    (create_local_user : Option (Payload → String))
    (token : Option Payload) (resp : Response) (w : World) :
    Except Raised (Bool × World) :=
  match token with
  | none => .ok (false, flashMsg w "Unable to log in.")
  | some tok =>
    if resp.ok = false then .ok (false, flashMsg w "Unable to fetch user info.")
    else
      match lookupStr resp.json "sub" with
      | none => .error (.keyError "sub", w)
      | some user_id =>
        match queryOne (recordsFor w.db.tokens p user_id) with
        | .ok local_token =>
          .ok (false, { w with
                          currentUser := some local_token.user_id,
                          flashes := w.flashes ++ ["Logged in."] })
        | .error .noResult =>
          let resolved : Option String :=
            if w.db.users.contains user_id then some user_id
            else match create_local_user with
                 | some f => some (f resp.json)
                 | none => none
          match resolved with
          | none => .ok (false, flashMsg w "User not found.")
          | some u =>
            .ok (false, { w with
                            db := { users := addUser w.db.users u,
                                    tokens := w.db.tokens ++ [⟨p, u, tok⟩] },
                            currentUser := some u,
                            flashes := w.flashes ++ ["Logged in."] })
        | .error e => .error (e, w)

/-- `HydraClientBlueprint.logout`: as in the other variant, but the
end-session URL takes `local_token.token['id_token']`, so a payload without
`id_token` raises `KeyError` — after the nonce has already been stored in
the session. -/
def logout (bp : Blueprint) (nonce loggedOutUrl : String) (w : World) :
    Except Raised (String × World) :=
  match w.currentUser with
  | none => .error (.attributeError, w)
  | some uid =>
    match queryOne (recordsFor w.db.tokens bp.name uid) with
    | .error e => .error (e, w)
    | .ok local_token =>
      let w' := { w with session := assocSet w.session (stateKey bp.name) nonce }
      match lookupStr local_token.token "id_token" with
      | none => .error (.keyError "id_token", w')
      | some idt =>
        .ok (bp.logout_url
               ++ "?id_token_hint=" ++ idt
               ++ "&post_logout_redirect_uri=" ++ loggedOutUrl
               ++ "&state=" ++ nonce,
             w')

end HydraClientBlueprint

/-! ### Helper lemmas on the session store and the token table -/

theorem lookupStr_assocSet_self (l : Payload) (k v : String) :
    lookupStr (assocSet l k v) k = some v := by
  induction l with
  | nil => simp [assocSet, lookupStr]
  | cons hd tl ih =>
    obtain ⟨k', v'⟩ := hd
    by_cases h : k' = k
    · simp [assocSet, lookupStr, h]
    · simp [assocSet, lookupStr, h, ih]

theorem lookupStr_assocSet_ne (l : Payload) (k v k' : String) (h : k' ≠ k) :
    lookupStr (assocSet l k v) k' = lookupStr l k' := by
  induction l with
  | nil => simp [assocSet, lookupStr, Ne.symm h]
  | cons hd tl ih =>
    obtain ⟨k₀, v₀⟩ := hd
    by_cases h₀ : k₀ = k
    · subst h₀
      simp [assocSet, lookupStr, Ne.symm h]
    · simp [assocSet, lookupStr, h₀, ih]

theorem lookupStr_assocErase_self (l : Payload) (k : String) :
    lookupStr (assocErase l k) k = none := by
  induction l with
  | nil => simp [assocErase, lookupStr]
  | cons hd tl ih =>
    obtain ⟨k₀, v₀⟩ := hd
    by_cases h₀ : k₀ = k
    · simp [assocErase, h₀, ih]
    · simp [assocErase, lookupStr, h₀, ih]

theorem lookupStr_assocErase_ne (l : Payload) (k k' : String) (h : k' ≠ k) :
    lookupStr (assocErase l k) k' = lookupStr l k' := by
  induction l with
  | nil => simp [assocErase]
  | cons hd tl ih =>
    obtain ⟨k₀, v₀⟩ := hd
    by_cases h₀ : k₀ = k
    · subst h₀
      simp [assocErase, lookupStr, Ne.symm h, ih]
    · simp [assocErase, lookupStr, h₀, ih]

theorem recordsFor_append (l l' : List TokenRecord) (p s : String) :
    recordsFor (l ++ l') p s = recordsFor l p s ++ recordsFor l' p s := by
  simp [recordsFor, List.filter_append]

theorem recordsFor_single_self (p s : String) (tok : Payload) :
    recordsFor [⟨p, s, tok⟩] p s = [⟨p, s, tok⟩] := by
  simp [recordsFor]

theorem recordsFor_updateToken (l : List TokenRecord) (p s : String) (tok : Payload) :
    recordsFor (updateToken l p s tok) p s
      = (recordsFor l p s).map (fun _ => (⟨p, s, tok⟩ : TokenRecord)) := by
  induction l with
  | nil => rfl
  | cons r tl ih =>
    obtain ⟨rp, ru, rt⟩ := r
    by_cases hp : rp = p
    · by_cases hs : ru = s
      · simp [recordsFor, updateToken, hp, hs, List.filter_cons] at ih ⊢
        exact ih
      · simp [recordsFor, updateToken, hp, hs, List.filter_cons] at ih ⊢
        exact ih
    · simp [recordsFor, updateToken, hp, List.filter_cons] at ih ⊢
      exact ih

/-! ### Characterisations of the login-completion handlers -/

/-- Tail of the create-or-update login with at most one matching row: it
succeeds, the committed table holds exactly the row `(p, s)` with the new
payload, the user table is exactly the staged rows, the user is logged in
and `"Logged in."` flashed; the session dict is untouched. -/
theorem finishLogin_ok (p s : String) (users' : List String) (tok : Payload) (w : World)
    (h : (recordsFor w.db.tokens p s).length ≤ 1) :
    ∃ w', HydraOAuth2Blueprint.finishLogin p s users' tok w = .ok (false, w') ∧
      recordsFor w'.db.tokens p s = [⟨p, s, tok⟩] ∧
      w'.db.users = users' ∧ w'.currentUser = some s ∧
      w'.session = w.session ∧ w'.flashes = w.flashes ++ ["Logged in."] := by
  rcases hrec : recordsFor w.db.tokens p s with _ | ⟨r, rest⟩
  · refine ⟨{ w with db := { users := users',
                             tokens := w.db.tokens ++ [⟨p, s, tok⟩] },
                     currentUser := some s,
                     flashes := w.flashes ++ ["Logged in."] }, ?_, ?_, rfl, rfl, rfl, rfl⟩
    · simp [HydraOAuth2Blueprint.finishLogin, hrec, queryOne]
    · simp [recordsFor_append, hrec, recordsFor_single_self]
  · rcases rest with _ | ⟨r₂, rest₂⟩
    · refine ⟨{ w with db := { users := users',
                               tokens := updateToken w.db.tokens p s tok },
                       currentUser := some s,
                       flashes := w.flashes ++ ["Logged in."] }, ?_, ?_, rfl, rfl, rfl, rfl⟩
      · simp [HydraOAuth2Blueprint.finishLogin, hrec, queryOne]
      · simp [recordsFor_updateToken, hrec]
    · rw [hrec] at h
      simp at h

/-- An exception escaping the create-or-update login tail leaves the world as
it was: the raise happens before the commit. -/
theorem finishLogin_error_eq (p s : String) (users' : List String) (tok : Payload)
    (w : World) (e : PyError) (w' : World)
    (h : HydraOAuth2Blueprint.finishLogin p s users' tok w = .error (e, w')) : w' = w := by
  unfold HydraOAuth2Blueprint.finishLogin at h
  split at h <;> simp_all

/-- With no reconciliation callback and an existing local user, the
create-or-update login reduces to its commit tail. -/
theorem oauth2_login_eq_finish_none (p s : String) (tok : Payload) (resp : Response)
    (w : World) (hok : resp.ok = true) (hsub : lookupStr resp.json "sub" = some s)
    (hu : s ∈ w.db.users) :
    HydraOAuth2Blueprint.hydra_logged_in p none (some tok) resp w
      = HydraOAuth2Blueprint.finishLogin p s w.db.users tok w := by
  simp [HydraOAuth2Blueprint.hydra_logged_in, hok, hsub, hu]

/-- With a reconciliation callback that returns a user, the create-or-update
login reduces to its commit tail with that user staged. -/
theorem oauth2_login_eq_finish_some (p s u : String)
    (f : Option String → Payload → Option String) (tok : Payload) (resp : Response)
    (w : World) (hok : resp.ok = true) (hsub : lookupStr resp.json "sub" = some s)
    (hf : f (if s ∈ w.db.users then some s else none) resp.json = some u) :
    HydraOAuth2Blueprint.hydra_logged_in p (some f) (some tok) resp w
      = HydraOAuth2Blueprint.finishLogin p s (addUser w.db.users u) tok w := by
  simp [HydraOAuth2Blueprint.hydra_logged_in, hok, hsub, hf]

/-- First strict-lookup login of a known user: a fresh row carrying this
exchange's payload is committed and the user logged in. -/
theorem client_login_fresh (p s : String) (tok : Payload) (resp : Response) (w : World)
    (hok : resp.ok = true) (hsub : lookupStr resp.json "sub" = some s)
    (hu : s ∈ w.db.users)
    (hrec : recordsFor w.db.tokens p s = []) :
    HydraClientBlueprint.hydra_logged_in p none (some tok) resp w
      = .ok (false, { w with
                        db := { users := w.db.users,
                                tokens := w.db.tokens ++ [⟨p, s, tok⟩] },
                        currentUser := some s,
                        flashes := w.flashes ++ ["Logged in."] }) := by
  simp [HydraClientBlueprint.hydra_logged_in, hok, hsub, hu, hrec, queryOne, addUser]

/-- Re-login in strict-lookup mode with an existing row: the user is logged
in, the database — including the stored payload — is untouched. -/
theorem client_login_existing (p s : String)
    (creator : Option (Payload → String)) (tok : Payload) (resp : Response)
    (w : World) (r : TokenRecord)
    (hok : resp.ok = true) (hsub : lookupStr resp.json "sub" = some s)
    (hrec : recordsFor w.db.tokens p s = [r]) :
    HydraClientBlueprint.hydra_logged_in p creator (some tok) resp w
      = .ok (false, { w with
                        currentUser := some r.user_id,
                        flashes := w.flashes ++ ["Logged in."] }) := by
  simp [HydraClientBlueprint.hydra_logged_in, hok, hsub, hrec, queryOne]

/-! ### C2: nonce handling of `logged_out` -/

/-- Concrete scenario for C2: a nonce `"N"` is stored for the `"hydra"`
blueprint and the callback presents `state="M"`. -/
def c2World : World :=
  ⟨⟨[], []⟩, [("hydra_oauth_state", "N")], some "alice", []⟩

/-- C2 counterexample: with nonce `"N"` stored for provider `"hydra"`, a
`logged_out` call presenting the non-matching `state="M"` leaves the nonce in
the session — it is NOT erased on mismatch, refuting the claim that the nonce
is erased regardless of whether the presented state matched. -/
theorem C2_mismatch_keeps_nonce :
    lookupStr c2World.session (stateKey "hydra") = some "N" ∧
    (some "M" : Option String) ≠ some "N" ∧
    lookupStr (logged_out "hydra" (some "M") c2World).2.session (stateKey "hydra")
      = some "N" := by
  decide

/-- C2 (amended): for every `logged_out()` call with a Flow State nonce
stored in the session for this provider, the nonce is erased exactly when the
presented `state` matches it; on a mismatch (or absent parameter) the whole
world — nonce included — is left unchanged. -/
theorem C2_nonce_erased_iff_match (name : String) (stateParam : Option String)
    (w : World) (v : String) (h : lookupStr w.session (stateKey name) = some v) :
    (stateParam = some v →
       lookupStr (logged_out name stateParam w).2.session (stateKey name) = none) ∧
    (stateParam ≠ some v → (logged_out name stateParam w).2 = w) := by
  constructor
  · intro he
    simp [logged_out, h, he, lookupStr_assocErase_self]
  · intro hne
    simp [logged_out, h, hne]

/-- C2 witness: the amended statement evaluated on the concrete scenario, in
both the matching and the mismatching case. -/
theorem C2_nonce_erased_iff_match_witness :
    lookupStr (logged_out "hydra" (some "N") c2World).2.session (stateKey "hydra")
      = none ∧
    (logged_out "hydra" (some "M") c2World).2 = c2World :=
  ⟨(C2_nonce_erased_iff_match "hydra" (some "N") c2World "N" (by decide)).1 rfl,
   (C2_nonce_erased_iff_match "hydra" (some "M") c2World "N" (by decide)).2 (by decide)⟩

/-! ### C5: mismatched / absent state is a silent no-op -/

/-- C5: whenever the presented `state` differs from whatever nonce is stored
for this provider — covering a differing value, no stored nonce at all, and
an absent `state` parameter — `logged_out()` mutates nothing (the returned
world is the input world, so the login session is untouched), raises nothing
(it is a total function), and redirects to `/`. -/
theorem C5_mismatched_state_no_mutation (name : String) (stateParam : Option String)
    (w : World)
    (h : ∀ v, lookupStr w.session (stateKey name) = some v → stateParam ≠ some v) :
    logged_out name stateParam w = ("/", w) := by
  rcases hl : lookupStr w.session (stateKey name) with _ | v
  · simp [logged_out, hl]
  · simp [logged_out, hl, h v hl]

/-- Concrete scenario for C5: nonce `"N"` stored for `"hydra"`, a user logged
in. -/
def c5World : World :=
  ⟨⟨[], []⟩, [("hydra_oauth_state", "N")], some "bob", []⟩

/-- C5 witness: concrete mismatch (nonce `"N"` stored, `state="M"` presented)
and concrete absent-parameter call, both identities redirecting to `/`. -/
theorem C5_mismatched_state_no_mutation_witness :
    logged_out "hydra" (some "M") c5World = ("/", c5World) ∧
    logged_out "hydra" none c5World = ("/", c5World) :=
  ⟨C5_mismatched_state_no_mutation "hydra" (some "M") c5World
     (by intro v hv; simp [c5World, lookupStr, stateKey] at hv; subst hv; decide),
   C5_mismatched_state_no_mutation "hydra" none c5World
     (by intro v hv; simp)⟩

/-! ### C4: the logout nonce is honored at most once -/

/-- C4: once `logout()` has stored a fresh nonce for provider `bp.name`, the
first `logged_out()` presenting that nonce redirects to `/`, destroys the
local login session, erases the nonce and flashes `"Logged out."`; a second
`logged_out()` presenting the same nonce returns the world unchanged — the
nonce is honored at most once. -/
theorem C4_logout_nonce_single_use (bp : Blueprint) (nonce curl : String)
    (w : World) (url : String) (w₀ : World)
    (h : HydraOAuth2Blueprint.logout bp nonce curl w = .ok (url, w₀)) :
    (logged_out bp.name (some nonce) w₀).1 = "/" ∧
    (logged_out bp.name (some nonce) w₀).2.currentUser = none ∧
    lookupStr (logged_out bp.name (some nonce) w₀).2.session (stateKey bp.name)
      = none ∧
    (logged_out bp.name (some nonce) w₀).2.flashes = w₀.flashes ++ ["Logged out."] ∧
    logged_out bp.name (some nonce) (logged_out bp.name (some nonce) w₀).2
      = ("/", (logged_out bp.name (some nonce) w₀).2) := by
  have hsess : w₀.session = assocSet w.session (stateKey bp.name) nonce := by
    rcases hcu : w.currentUser with _ | uid <;>
      simp only [HydraOAuth2Blueprint.logout, hcu] at h
    · simp at h
    · rcases hq : queryOne (recordsFor w.db.tokens bp.name uid) with e | r <;>
        simp only [hq] at h
      · simp at h
      · simp at h
        rw [← h.2]
  have h1 : lookupStr w₀.session (stateKey bp.name) = some nonce := by
    rw [hsess]; exact lookupStr_assocSet_self ..
  have hfirst : logged_out bp.name (some nonce) w₀
      = ("/", { w₀ with
                  currentUser := none,
                  session := assocErase w₀.session (stateKey bp.name),
                  flashes := w₀.flashes ++ ["Logged out."] }) := by
    simp [logged_out, h1]
  refine ⟨by rw [hfirst], by rw [hfirst], ?_, by rw [hfirst], ?_⟩
  · rw [hfirst]
    exact lookupStr_assocErase_self ..
  · rw [hfirst]
    simp [logged_out, lookupStr_assocErase_self]

/-- Concrete scenario for C4: the `"hydra"` blueprint, a logged-in user
`"alice"` with one token row. -/
def c4World : World :=
  ⟨⟨["alice"], [⟨"hydra", "alice", [("id_token", "idt"), ("access_token", "at")]⟩]⟩,
   [], some "alice", []⟩

/-- Concrete world after `logout()` stored the nonce `"N"` in `c4World`. -/
def c4WorldAfter : World :=
  ⟨⟨["alice"], [⟨"hydra", "alice", [("id_token", "idt"), ("access_token", "at")]⟩]⟩,
   [("hydra_oauth_state", "N")], some "alice", []⟩

/-- C4 witness: the single-use property evaluated on the concrete scenario. -/
theorem C4_logout_nonce_single_use_witness :
    (logged_out "hydra" (some "N") c4WorldAfter).1 = "/" ∧
    (logged_out "hydra" (some "N") c4WorldAfter).2.currentUser = none ∧
    lookupStr (logged_out "hydra" (some "N") c4WorldAfter).2.session
      (stateKey "hydra") = none ∧
    (logged_out "hydra" (some "N") c4WorldAfter).2.flashes
      = c4WorldAfter.flashes ++ ["Logged out."] ∧
    logged_out "hydra" (some "N") (logged_out "hydra" (some "N") c4WorldAfter).2
      = ("/", (logged_out "hydra" (some "N") c4WorldAfter).2) :=
  C4_logout_nonce_single_use ⟨"hydra", "https://h"⟩ "N" "cb" c4World
    ("https://h/oauth2/sessions/logout?id_token_hint=idt&post_logout_redirect_uri=cb&state=N")
    c4WorldAfter (by rfl)

/-! ### C10: the logout flow touches only its own session key -/

/-- C10: a successful `logout()` of the blueprint named `bp.name` stores its
nonce only under the session key `"{bp.name}_oauth_state"` and leaves the
value under every other session key — in particular the nonces of blueprints
mounted under other provider names — unchanged; `logged_out()` likewise reads
and deletes only that key, leaving every other key's value unchanged. -/
theorem C10_session_key_frame :
    (∀ (bp : Blueprint) (nonce curl : String) (w : World) (url : String)
       (w' : World),
       HydraOAuth2Blueprint.logout bp nonce curl w = .ok (url, w') →
       lookupStr w'.session (stateKey bp.name) = some nonce ∧
       ∀ k, k ≠ stateKey bp.name → lookupStr w'.session k = lookupStr w.session k) ∧
    (∀ (name : String) (stateParam : Option String) (w : World) (k : String),
       k ≠ stateKey name →
       lookupStr (logged_out name stateParam w).2.session k = lookupStr w.session k) := by
  constructor
  · intro bp nonce curl w url w' h
    have hsess : w'.session = assocSet w.session (stateKey bp.name) nonce := by
      rcases hcu : w.currentUser with _ | uid <;>
        simp only [HydraOAuth2Blueprint.logout, hcu] at h
      · simp at h
      · rcases hq : queryOne (recordsFor w.db.tokens bp.name uid) with e | r <;>
          simp only [hq] at h
        · simp at h
        · simp at h
          rw [← h.2]
    rw [hsess]
    exact ⟨lookupStr_assocSet_self .., fun k hk => lookupStr_assocSet_ne _ _ _ _ hk⟩
  · intro name stateParam w k hk
    rcases hl : lookupStr w.session (stateKey name) with _ | v
    · simp [logged_out, hl]
    · by_cases he : stateParam = some v
      · simp [logged_out, hl, he, lookupStr_assocErase_ne _ _ _ hk]
      · simp [logged_out, hl, he]

/-- Concrete scenario for C10: two blueprints' nonces live side by side; the
`"hydra"` flow must not disturb the `"other"` one. -/
def c10World : World :=
  ⟨⟨["alice"], [⟨"hydra", "alice", [("id_token", "idt")]⟩]⟩,
   [("other_oauth_state", "K")], some "alice", []⟩

/-- Concrete world after `logout()` of the `"hydra"` blueprint in
`c10World`. -/
def c10WorldAfter : World :=
  ⟨⟨["alice"], [⟨"hydra", "alice", [("id_token", "idt")]⟩]⟩,
   [("other_oauth_state", "K"), ("hydra_oauth_state", "N")], some "alice", []⟩

/-- C10 witness: on the concrete two-blueprint scenario, `logout` stores its
own nonce and preserves the foreign key `"other_oauth_state"`, and
`logged_out` preserves it too. -/
theorem C10_session_key_frame_witness :
    lookupStr c10WorldAfter.session (stateKey "hydra") = some "N" ∧
    lookupStr c10WorldAfter.session "other_oauth_state"
      = lookupStr c10World.session "other_oauth_state" ∧
    lookupStr (logged_out "hydra" (some "N") c10WorldAfter).2.session
        "other_oauth_state"
      = lookupStr c10WorldAfter.session "other_oauth_state" :=
  ⟨(C10_session_key_frame.1 ⟨"hydra", "https://h"⟩ "N" "cb" c10World
      ("https://h/oauth2/sessions/logout?id_token_hint=idt&post_logout_redirect_uri=cb&state=N")
      c10WorldAfter (by rfl)).1,
   (C10_session_key_frame.1 ⟨"hydra", "https://h"⟩ "N" "cb" c10World
      ("https://h/oauth2/sessions/logout?id_token_hint=idt&post_logout_redirect_uri=cb&state=N")
      c10WorldAfter (by rfl)).2 "other_oauth_state" (by decide),
   C10_session_key_frame.2 "hydra" (some "N") c10WorldAfter "other_oauth_state"
     (by decide)⟩

/-! ### C6: strict-lookup mode without a creation callback -/

/-- C6: in strict-lookup mode with no `create_local_user` callback, when the
token and the user-info were obtained but no local user has id
`userinfo['sub']` and no token row for `(provider, sub)` exists, the handler
flashes `"User not found."` and aborts: the result is exactly the input world
with that one message appended, so no session is established and no user or
token row is committed. -/
theorem C6_strict_lookup_user_not_found (p : String) (tok : Payload)
    (resp : Response) (w : World) (s : String)
    (hok : resp.ok = true) (hsub : lookupStr resp.json "sub" = some s)
    (hu : s ∉ w.db.users) (hrec : recordsFor w.db.tokens p s = []) :
    HydraClientBlueprint.hydra_logged_in p none (some tok) resp w
      = .ok (false, flashMsg w "User not found.") ∧
    (flashMsg w "User not found.").db = w.db ∧
    (flashMsg w "User not found.").currentUser = w.currentUser ∧
    (flashMsg w "User not found.").session = w.session := by
  refine ⟨?_, rfl, rfl, rfl⟩
  simp [HydraClientBlueprint.hydra_logged_in, hok, hsub, hu, hrec, queryOne, flashMsg]

/-- Concrete scenario for C6: empty database, userinfo for the unknown
subject `"carol"`. -/
def c6World : World := ⟨⟨[], []⟩, [], none, []⟩

/-- C6 witness: the strict-lookup failure evaluated on the concrete empty
database. -/
theorem C6_strict_lookup_user_not_found_witness :
    HydraClientBlueprint.hydra_logged_in "hydra" none (some [("access_token", "a")])
        ⟨true, [("sub", "carol")]⟩ c6World
      = .ok (false, flashMsg c6World "User not found.") ∧
    (flashMsg c6World "User not found.").db = c6World.db ∧
    (flashMsg c6World "User not found.").currentUser = c6World.currentUser ∧
    (flashMsg c6World "User not found.").session = c6World.session :=
  C6_strict_lookup_user_not_found "hydra" [("access_token", "a")]
    ⟨true, [("sub", "carol")]⟩ c6World "carol" rfl rfl (by decide) rfl

/-! ### C9: userinfo without a `sub` key raises `KeyError` -/

/-- C9: in both variants, when the user-info fetch succeeded (2xx) but the
JSON payload has no `"sub"` key, `hydra_logged_in` raises an uncaught
`KeyError` — modelled as an `Except.error` carrying `keyError "sub"` together
with the unchanged world: no session was established and nothing was
committed before the raise. -/
theorem C9_missing_sub_keyerror (p : String)
    (upd : Option (Option String → Payload → Option String))
    (creator : Option (Payload → String)) (tok : Payload)
    (resp : Response) (w : World)
    (hok : resp.ok = true) (hsub : lookupStr resp.json "sub" = none) :
    HydraOAuth2Blueprint.hydra_logged_in p upd (some tok) resp w
      = .error (.keyError "sub", w) ∧
    HydraClientBlueprint.hydra_logged_in p creator (some tok) resp w
      = .error (.keyError "sub", w) := by
  constructor
  · simp [HydraOAuth2Blueprint.hydra_logged_in, hok, hsub]
  · simp [HydraClientBlueprint.hydra_logged_in, hok, hsub]

/-- Concrete scenario for C9: a 2xx userinfo response whose JSON carries an
email but no `"sub"` key. -/
def c9World : World := ⟨⟨["alice"], []⟩, [], none, []⟩

/-- C9 witness: the `KeyError` raise evaluated on the concrete sub-less
response, for both variants. -/
theorem C9_missing_sub_keyerror_witness :
    HydraOAuth2Blueprint.hydra_logged_in "hydra" none (some [("access_token", "a")])
        ⟨true, [("email", "a@b.c")]⟩ c9World
      = .error (.keyError "sub", c9World) ∧
    HydraClientBlueprint.hydra_logged_in "hydra" none (some [("access_token", "a")])
        ⟨true, [("email", "a@b.c")]⟩ c9World
      = .error (.keyError "sub", c9World) :=
  C9_missing_sub_keyerror "hydra" none none [("access_token", "a")]
    ⟨true, [("email", "a@b.c")]⟩ c9World rfl rfl

/-! ### C7: zero-or-multiple token rows is a hard error -/

/-- C7: with an authenticated local session, `logout()` and
`get_access_token()` raise (`NoResultFound` / `MultipleResultsFound`
propagating as a server error, the world unchanged) whenever zero or at
least two token rows match `(provider, current user's id)`; with exactly one
row, `get_access_token()` returns the `access_token` field of that row's
payload. -/
theorem C7_token_record_invariant :
    (∀ (bp : Blueprint) (nonce curl : String) (w : World) (uid : String),
       w.currentUser = some uid →
       recordsFor w.db.tokens bp.name uid = [] →
       HydraOAuth2Blueprint.logout bp nonce curl w = .error (.noResult, w) ∧
       HydraOAuth2Blueprint.get_access_token bp w = .error (.noResult, w)) ∧
    (∀ (bp : Blueprint) (nonce curl : String) (w : World) (uid : String)
       (r₁ r₂ : TokenRecord) (rest : List TokenRecord),
       w.currentUser = some uid →
       recordsFor w.db.tokens bp.name uid = r₁ :: r₂ :: rest →
       HydraOAuth2Blueprint.logout bp nonce curl w = .error (.multipleResults, w) ∧
       HydraOAuth2Blueprint.get_access_token bp w = .error (.multipleResults, w)) ∧
    (∀ (bp : Blueprint) (w : World) (uid : String) (r : TokenRecord) (a : String),
       w.currentUser = some uid →
       recordsFor w.db.tokens bp.name uid = [r] →
       lookupStr r.token "access_token" = some a →
       HydraOAuth2Blueprint.get_access_token bp w = .ok a) := by
  refine ⟨?_, ?_, ?_⟩
  · intro bp nonce curl w uid hcu hrec
    constructor
    · simp [HydraOAuth2Blueprint.logout, hcu, hrec, queryOne]
    · simp [HydraOAuth2Blueprint.get_access_token, hcu, hrec, queryOne]
  · intro bp nonce curl w uid r₁ r₂ rest hcu hrec
    constructor
    · simp [HydraOAuth2Blueprint.logout, hcu, hrec, queryOne]
    · simp [HydraOAuth2Blueprint.get_access_token, hcu, hrec, queryOne]
  · intro bp w uid r a hcu hrec ha
    simp [HydraOAuth2Blueprint.get_access_token, hcu, hrec, queryOne, ha]

/-- Concrete scenario for C7, zero rows: `"alice"` authenticated, empty
token table. -/
def c7WorldZero : World := ⟨⟨["alice"], []⟩, [], some "alice", []⟩

/-- Concrete scenario for C7, duplicate rows for `("hydra", "alice")`. -/
def c7WorldTwo : World :=
  ⟨⟨["alice"], [⟨"hydra", "alice", [("access_token", "a1")]⟩,
                ⟨"hydra", "alice", [("access_token", "a2")]⟩]⟩,
   [], some "alice", []⟩

/-- Concrete scenario for C7, exactly one row for `("hydra", "alice")`. -/
def c7WorldOne : World :=
  ⟨⟨["alice"], [⟨"hydra", "alice", [("access_token", "a1")]⟩]⟩,
   [], some "alice", []⟩

/-- C7 witness: the three cases evaluated on concrete tables with zero, two
and one matching rows. -/
theorem C7_token_record_invariant_witness :
    (HydraOAuth2Blueprint.logout ⟨"hydra", "https://h"⟩ "N" "cb" c7WorldZero
       = .error (.noResult, c7WorldZero) ∧
     HydraOAuth2Blueprint.get_access_token ⟨"hydra", "https://h"⟩ c7WorldZero
       = .error (.noResult, c7WorldZero)) ∧
    (HydraOAuth2Blueprint.logout ⟨"hydra", "https://h"⟩ "N" "cb" c7WorldTwo
       = .error (.multipleResults, c7WorldTwo) ∧
     HydraOAuth2Blueprint.get_access_token ⟨"hydra", "https://h"⟩ c7WorldTwo
       = .error (.multipleResults, c7WorldTwo)) ∧
    HydraOAuth2Blueprint.get_access_token ⟨"hydra", "https://h"⟩ c7WorldOne
      = .ok "a1" :=
  ⟨C7_token_record_invariant.1 ⟨"hydra", "https://h"⟩ "N" "cb" c7WorldZero "alice"
     rfl rfl,
   C7_token_record_invariant.2.1 ⟨"hydra", "https://h"⟩ "N" "cb" c7WorldTwo "alice"
     ⟨"hydra", "alice", [("access_token", "a1")]⟩
     ⟨"hydra", "alice", [("access_token", "a2")]⟩ [] rfl (by rfl),
   C7_token_record_invariant.2.2 ⟨"hydra", "https://h"⟩ c7WorldOne "alice"
     ⟨"hydra", "alice", [("access_token", "a1")]⟩ "a1" rfl (by rfl) rfl⟩

/-! ### C3: the logout redirect and its query parameters -/

/-- Concrete scenario for C3: `"alice"` authenticated against the `"hydra"`
blueprint with a stored token payload that has no `id_token`. -/
def c3World : World :=
  ⟨⟨["alice"], [⟨"hydra", "alice", [("access_token", "a")]⟩]⟩,
   [], some "alice", []⟩

/-- C3 counterexample: in `HydraClientBlueprint`, `logout()` for a stored
payload without `id_token` does not return a redirect with an empty
`id_token_hint` — it raises `KeyError` (`token['id_token']`), with the fresh
nonce already written to the session.  This refutes the claim's
"empty string if the payload has no id_token" for this variant. -/
theorem C3_client_missing_id_token_raises :
    lookupStr ([("access_token", "a")] : Payload) "id_token" = none ∧
    HydraClientBlueprint.logout ⟨"hydra", "https://h"⟩ "N" "cb" c3World
      = .error (.keyError "id_token",
                { c3World with session := [("hydra_oauth_state", "N")] }) := by
  constructor
  · rfl
  · rfl

/-- C3 (amended): `logout()`, for an authenticated user with exactly one
stored token row for this provider, stores the fresh nonce in the session
under `"{bp.name}_oauth_state"` and returns a redirect to
`{hydra_public_url}/oauth2/sessions/logout` whose query string carries
`id_token_hint`, `post_logout_redirect_uri` (the computed `logged_out`
callback URL) and `state` (the stored nonce) — where `HydraOAuth2Blueprint`
takes `id_token_hint` from the payload's `id_token` defaulting to the empty
string when absent, while `HydraClientBlueprint` requires `id_token` to be
present and raises `KeyError` otherwise. -/
theorem C3_logout_redirect_amended :
    (∀ (bp : Blueprint) (nonce curl : String) (w : World) (uid : String)
       (r : TokenRecord),
       w.currentUser = some uid →
       recordsFor w.db.tokens bp.name uid = [r] →
       HydraOAuth2Blueprint.logout bp nonce curl w
         = .ok (bp.logout_url ++ "?id_token_hint="
                  ++ (lookupStr r.token "id_token").getD ""
                  ++ "&post_logout_redirect_uri=" ++ curl ++ "&state=" ++ nonce,
                { w with session := assocSet w.session (stateKey bp.name) nonce })) ∧
    (∀ (bp : Blueprint) (nonce curl : String) (w : World) (uid : String)
       (r : TokenRecord) (idt : String),
       w.currentUser = some uid →
       recordsFor w.db.tokens bp.name uid = [r] →
       lookupStr r.token "id_token" = some idt →
       HydraClientBlueprint.logout bp nonce curl w
         = .ok (bp.logout_url ++ "?id_token_hint=" ++ idt
                  ++ "&post_logout_redirect_uri=" ++ curl ++ "&state=" ++ nonce,
                { w with session := assocSet w.session (stateKey bp.name) nonce })) := by
  constructor
  · intro bp nonce curl w uid r hcu hrec
    simp [HydraOAuth2Blueprint.logout, hcu, hrec, queryOne]
  · intro bp nonce curl w uid r idt hcu hrec hidt
    simp [HydraClientBlueprint.logout, hcu, hrec, queryOne, hidt]

/-- Concrete scenario for C3's witness: stored payloads with an `id_token`
for the client variant and without one for the oauth2 variant (exercising
the empty-string default). -/
def c3WorldWith : World :=
  ⟨⟨["alice"], [⟨"hydra", "alice", [("id_token", "idt"), ("access_token", "a")]⟩]⟩,
   [], some "alice", []⟩

/-- C3 witness: the amended redirect shape evaluated concretely — the oauth2
variant on a payload without `id_token` (empty-string hint) and the client
variant on a payload with one. -/
theorem C3_logout_redirect_witness :
    HydraOAuth2Blueprint.logout ⟨"hydra", "https://h"⟩ "N" "cb" c3World
      = .ok ((⟨"hydra", "https://h"⟩ : Blueprint).logout_url ++ "?id_token_hint="
               ++ (lookupStr ([("access_token", "a")] : Payload) "id_token").getD ""
               ++ "&post_logout_redirect_uri=" ++ "cb" ++ "&state=" ++ "N",
             { c3World with
                 session := assocSet c3World.session (stateKey "hydra") "N" }) ∧
    HydraClientBlueprint.logout ⟨"hydra", "https://h"⟩ "N" "cb" c3WorldWith
      = .ok ((⟨"hydra", "https://h"⟩ : Blueprint).logout_url ++ "?id_token_hint="
               ++ "idt"
               ++ "&post_logout_redirect_uri=" ++ "cb" ++ "&state=" ++ "N",
             { c3WorldWith with
                 session := assocSet c3WorldWith.session (stateKey "hydra") "N" }) :=
  ⟨C3_logout_redirect_amended.1 ⟨"hydra", "https://h"⟩ "N" "cb" c3World "alice"
     ⟨"hydra", "alice", [("access_token", "a")]⟩ rfl (by rfl),
   C3_logout_redirect_amended.2 ⟨"hydra", "https://h"⟩ "N" "cb" c3WorldWith "alice"
     ⟨"hydra", "alice", [("id_token", "idt"), ("access_token", "a")]⟩ "idt"
     rfl (by rfl) rfl⟩

/-! ### C1: idempotent re-login -/

/-- Userinfo response used in the C1 scenarios: subject `"alice"`. -/
def c1Resp : Response := ⟨true, [("sub", "alice")]⟩

/-- Token payload of the first exchange in the C1 scenarios. -/
def c1Tok1 : Payload := [("access_token", "a1")]

/-- Token payload of the second exchange in the C1 scenarios. -/
def c1Tok2 : Payload := [("access_token", "a2")]

/-- C1 start world: the user `"alice"` exists, no token rows. -/
def c1World0 : World := ⟨⟨["alice"], []⟩, [], none, []⟩

/-- C1 world after the first completed login (either variant): one row for
`("hydra", "alice")` carrying the first payload. -/
def c1World1 : World :=
  ⟨⟨["alice"], [⟨"hydra", "alice", c1Tok1⟩]⟩, [], some "alice", ["Logged in."]⟩

/-- C1 world after the second completed strict-lookup login: the row still
carries the FIRST payload. -/
def c1World2 : World :=
  ⟨⟨["alice"], [⟨"hydra", "alice", c1Tok1⟩]⟩, [], some "alice",
   ["Logged in.", "Logged in."]⟩

/-- C1 counterexample: in `HydraClientBlueprint`, completing the login twice
for `("hydra", "alice")` leaves one token row, but its payload is the FIRST
exchange's token, not the second — the existing row's payload is never
overwritten, refuting the claim for this variant. -/
theorem C1_client_second_login_keeps_first_payload :
    HydraClientBlueprint.hydra_logged_in "hydra" none (some c1Tok1) c1Resp c1World0
      = .ok (false, c1World1) ∧
    HydraClientBlueprint.hydra_logged_in "hydra" none (some c1Tok2) c1Resp c1World1
      = .ok (false, c1World2) ∧
    recordsFor c1World2.db.tokens "hydra" "alice" = [⟨"hydra", "alice", c1Tok1⟩] ∧
    c1Tok1 ≠ c1Tok2 :=
  ⟨rfl, rfl, rfl, by decide⟩

/-- C1 (amended): completing the login callback twice for the same
`(provider, sub)` leaves exactly one token row for that pair in both
variants; in `HydraOAuth2Blueprint` its payload is the SECOND exchange's
token (the second overwrites the first), while in `HydraClientBlueprint` its
payload remains the FIRST exchange's token (the second is discarded). -/
theorem C1_idempotent_relogin_amended :
    (∀ (p s : String) (tok1 tok2 : Payload) (resp : Response) (w w1 w2 : World),
       resp.ok = true → lookupStr resp.json "sub" = some s → s ∈ w.db.users →
       (recordsFor w.db.tokens p s).length ≤ 1 →
       HydraOAuth2Blueprint.hydra_logged_in p none (some tok1) resp w
         = .ok (false, w1) →
       HydraOAuth2Blueprint.hydra_logged_in p none (some tok2) resp w1
         = .ok (false, w2) →
       recordsFor w2.db.tokens p s = [⟨p, s, tok2⟩]) ∧
    (∀ (p s : String) (tok1 tok2 : Payload) (resp : Response) (w w1 w2 : World),
       resp.ok = true → lookupStr resp.json "sub" = some s → s ∈ w.db.users →
       recordsFor w.db.tokens p s = [] →
       HydraClientBlueprint.hydra_logged_in p none (some tok1) resp w
         = .ok (false, w1) →
       HydraClientBlueprint.hydra_logged_in p none (some tok2) resp w1
         = .ok (false, w2) →
       recordsFor w2.db.tokens p s = [⟨p, s, tok1⟩]) := by
  constructor
  · intro p s tok1 tok2 resp w w1 w2 hok hsub hu hlen h1 h2
    rw [oauth2_login_eq_finish_none p s tok1 resp w hok hsub hu] at h1
    obtain ⟨w1', heq1, hrec1, hus1, _, _, _⟩ :=
      finishLogin_ok p s w.db.users tok1 w hlen
    rw [heq1] at h1
    simp at h1
    subst h1
    have hu1 : s ∈ w1'.db.users := by rw [hus1]; exact hu
    have hlen1 : (recordsFor w1'.db.tokens p s).length ≤ 1 := by
      rw [hrec1]; simp
    rw [oauth2_login_eq_finish_none p s tok2 resp w1' hok hsub hu1] at h2
    obtain ⟨w2', heq2, hrec2, _, _, _, _⟩ :=
      finishLogin_ok p s w1'.db.users tok2 w1' hlen1
    rw [heq2] at h2
    simp at h2
    subst h2
    exact hrec2
  · intro p s tok1 tok2 resp w w1 w2 hok hsub hu hrec h1 h2
    rw [client_login_fresh p s tok1 resp w hok hsub hu hrec] at h1
    simp at h1
    subst h1
    have hrec1 : recordsFor (w.db.tokens ++ [⟨p, s, tok1⟩]) p s
        = [⟨p, s, tok1⟩] := by
      rw [recordsFor_append, hrec, recordsFor_single_self]
      rfl
    rw [client_login_existing p s none tok2 resp _ ⟨p, s, tok1⟩ hok hsub hrec1] at h2
    simp at h2
    subst h2
    exact hrec1

/-- C1 world after the second completed create-or-update login: the row
carries the SECOND payload. -/
def c1OAuthWorld2 : World :=
  ⟨⟨["alice"], [⟨"hydra", "alice", c1Tok2⟩]⟩, [], some "alice",
   ["Logged in.", "Logged in."]⟩

/-- C1 witness: the amended double-login behaviour evaluated on the concrete
`"alice"` scenario, for both variants. -/
theorem C1_idempotent_relogin_witness :
    recordsFor c1OAuthWorld2.db.tokens "hydra" "alice"
      = [⟨"hydra", "alice", c1Tok2⟩] ∧
    recordsFor c1World2.db.tokens "hydra" "alice"
      = [⟨"hydra", "alice", c1Tok1⟩] :=
  ⟨C1_idempotent_relogin_amended.1 "hydra" "alice" c1Tok1 c1Tok2 c1Resp
     c1World0 c1World1 c1OAuthWorld2 rfl rfl (by decide) (by decide) rfl rfl,
   C1_idempotent_relogin_amended.2 "hydra" "alice" c1Tok1 c1Tok2 c1Resp
     c1World0 c1World1 c1World2 rfl rfl (by decide) (by decide) rfl rfl⟩

/-! ### C8: create-or-update persistence is atomic -/

/-- C8: in `HydraOAuth2Blueprint.hydra_logged_in`, every abort path commits
nothing and the success path commits user and token together.  In order: with
no token the handler only flashes `"Unable to log in."`; with a non-2xx
user-info response it only flashes `"Unable to fetch user info."`; with no
callback and no matching user it only flashes `"User not found."`; `flash`
touches neither database, session nor login state; every escaping exception
carries the unchanged world (the raise precedes the commit); and on the
success path with a callback the resulting world holds the reconciled user
AND the upserted token row simultaneously — the single commit — together with
the `"Logged in."` flash, the session dict untouched. -/
theorem C8_login_commit_atomicity :
    (∀ (p : String) (upd : Option (Option String → Payload → Option String))
       (resp : Response) (w : World),
       HydraOAuth2Blueprint.hydra_logged_in p upd none resp w
         = .ok (false, flashMsg w "Unable to log in.")) ∧
    (∀ (p : String) (upd : Option (Option String → Payload → Option String))
       (tok : Payload) (resp : Response) (w : World),
       resp.ok = false →
       HydraOAuth2Blueprint.hydra_logged_in p upd (some tok) resp w
         = .ok (false, flashMsg w "Unable to fetch user info.")) ∧
    (∀ (p : String) (tok : Payload) (resp : Response) (w : World) (s : String),
       resp.ok = true → lookupStr resp.json "sub" = some s → s ∉ w.db.users →
       HydraOAuth2Blueprint.hydra_logged_in p none (some tok) resp w
         = .ok (false, flashMsg w "User not found.")) ∧
    (∀ (w : World) (m : String),
       (flashMsg w m).db = w.db ∧ (flashMsg w m).currentUser = w.currentUser ∧
       (flashMsg w m).session = w.session) ∧
    (∀ (p : String) (upd : Option (Option String → Payload → Option String))
       (token : Option Payload) (resp : Response) (w : World) (e : PyError)
       (w' : World),
       HydraOAuth2Blueprint.hydra_logged_in p upd token resp w = .error (e, w') →
       w' = w) ∧
    (∀ (p : String) (f : Option String → Payload → Option String)
       (tok : Payload) (resp : Response) (w : World) (s u : String) (r : Bool)
       (w' : World),
       resp.ok = true → lookupStr resp.json "sub" = some s →
       (recordsFor w.db.tokens p s).length ≤ 1 →
       f (if s ∈ w.db.users then some s else none) resp.json = some u →
       HydraOAuth2Blueprint.hydra_logged_in p (some f) (some tok) resp w
         = .ok (r, w') →
       w'.db.users = addUser w.db.users u ∧
       recordsFor w'.db.tokens p s = [⟨p, s, tok⟩] ∧
       w'.session = w.session ∧
       w'.flashes = w.flashes ++ ["Logged in."]) := by
  refine ⟨?_, ?_, ?_, ?_, ?_, ?_⟩
  · intro p upd resp w
    rfl
  · intro p upd tok resp w hok
    simp [HydraOAuth2Blueprint.hydra_logged_in, hok]
  · intro p tok resp w s hok hsub hc
    simp [HydraOAuth2Blueprint.hydra_logged_in, hok, hsub, hc]
  · intro w m
    exact ⟨rfl, rfl, rfl⟩
  · intro p upd token resp w e w' h
    cases token with
    | none => simp [HydraOAuth2Blueprint.hydra_logged_in] at h
    | some tok =>
      cases hok : resp.ok with
      | false => simp [HydraOAuth2Blueprint.hydra_logged_in, hok] at h
      | true =>
        rcases hsub : lookupStr resp.json "sub" with _ | s
        · simp [HydraOAuth2Blueprint.hydra_logged_in, hok, hsub] at h
          exact h.2.symm
        · rcases upd with _ | f
          · by_cases hc : s ∈ w.db.users
            · simp [HydraOAuth2Blueprint.hydra_logged_in, hok, hsub, hc] at h
              exact finishLogin_error_eq _ _ _ _ _ _ _ h
            · simp [HydraOAuth2Blueprint.hydra_logged_in, hok, hsub, hc] at h
          · rcases hf : f (if s ∈ w.db.users then some s else none) resp.json
              with _ | u
            · simp [HydraOAuth2Blueprint.hydra_logged_in, hok, hsub, hf] at h
              exact h.2.symm
            · simp [HydraOAuth2Blueprint.hydra_logged_in, hok, hsub, hf] at h
              exact finishLogin_error_eq _ _ _ _ _ _ _ h
  · intro p f tok resp w s u r w' hok hsub hlen hf h
    rw [oauth2_login_eq_finish_some p s u f tok resp w hok hsub hf] at h
    obtain ⟨w'', heq, hrec, hus, _, hsess, hfl⟩ :=
      finishLogin_ok p s (addUser w.db.users u) tok w hlen
    rw [heq] at h
    simp at h
    obtain ⟨-, hw⟩ := h
    subst hw
    exact ⟨hus, hrec, hsess, hfl⟩

/-- Concrete start world for the C8 witness: user table `["alice"]`, no token
rows, one unrelated session key. -/
def c8World : World := ⟨⟨["alice"], []⟩, [("k", "v")], none, []⟩

/-- Concrete world after the successful create-or-update login of the new
subject `"dave"` in `c8World`: user and token row committed together. -/
def c8WorldAfter : World :=
  ⟨⟨["alice", "dave"], [⟨"hydra", "dave", [("access_token", "a")]⟩]⟩,
   [("k", "v")], some "dave", ["Logged in."]⟩

/-- C8 witness: the abort paths and the atomic success path evaluated on the
concrete `c8World` scenario. -/
theorem C8_login_commit_atomicity_witness :
    HydraOAuth2Blueprint.hydra_logged_in "hydra" none none ⟨true, []⟩ c8World
      = .ok (false, flashMsg c8World "Unable to log in.") ∧
    HydraOAuth2Blueprint.hydra_logged_in "hydra" none
        (some [("access_token", "a")]) ⟨false, []⟩ c8World
      = .ok (false, flashMsg c8World "Unable to fetch user info.") ∧
    HydraOAuth2Blueprint.hydra_logged_in "hydra" none
        (some [("access_token", "a")]) ⟨true, [("sub", "dave")]⟩ c8World
      = .ok (false, flashMsg c8World "User not found.") ∧
    (c8WorldAfter.db.users = addUser c8World.db.users "dave" ∧
     recordsFor c8WorldAfter.db.tokens "hydra" "dave"
       = [⟨"hydra", "dave", [("access_token", "a")]⟩] ∧
     c8WorldAfter.session = c8World.session ∧
     c8WorldAfter.flashes = c8World.flashes ++ ["Logged in."]) :=
  ⟨C8_login_commit_atomicity.1 "hydra" none ⟨true, []⟩ c8World,
   C8_login_commit_atomicity.2.1 "hydra" none [("access_token", "a")]
     ⟨false, []⟩ c8World rfl,
   C8_login_commit_atomicity.2.2.1 "hydra" [("access_token", "a")]
     ⟨true, [("sub", "dave")]⟩ c8World "dave" rfl rfl (by decide),
   C8_login_commit_atomicity.2.2.2.2.2 "hydra" (fun _ ui => lookupStr ui "sub")
     [("access_token", "a")] ⟨true, [("sub", "dave")]⟩ c8World "dave" "dave"
     false c8WorldAfter rfl rfl (by decide) rfl rfl⟩
